import Mathlib

/-!
Shallow embedding of `src/dashboard/app.py` (certs-n-status dashboard).

Modelling conventions:
* Redis is modelled as a finite association list of string keys to string
  values (`Store`); `scan_iter "p*"` is the list of keys beginning with `p`
  and `get` is association-list lookup.
* `datetime` values are modelled by their Unix timestamp in whole seconds;
  the current instant `now` is likewise an integer number of seconds.
* Python `int(s)` is modelled by `pyInt` for ASCII strings: surrounding
  whitespace stripped, optional sign, decimal digits with single
  underscores allowed between digits.
* Python's `str.replace` (which replaces every occurrence, not only a
  leading one) is modelled by `pyReplace`.
* `datetime.fromtimestamp(t, tz=utc)` succeeds for year 1..9999
  (`-62135596800 ≤ t ≤ 253402300799`), raises `ValueError`/`OSError`
  (both caught by the dashboard code) for other values representable in a
  signed 64-bit `time_t`, and raises `OverflowError` (not caught by the
  dashboard code) beyond 64 bits; `fromtimestampUtc` reproduces this.
* Exceptions that escape `get_endpoint_data` are modelled with `Except`.
-/

namespace CertsNStatus

/-- ASCII whitespace stripped by Python `int` before parsing. -/
def isPySpace (c : Char) : Bool :=
  c = ' ' || c = '\t' || c = '\n' || c = '\r' || c = '\x0b' || c = '\x0c'

def isDigitChar (c : Char) : Bool :=
  '0' ≤ c && c ≤ '9'

def digitVal (c : Char) : Nat := c.toNat - 48

/-- Digits of a Python integer literal after the first digit: decimal
digits, a single underscore allowed between two digits. -/
def parseDigitsAux : Nat → List Char → Option Nat
  | acc, [] => some acc
  | acc, c :: cs =>
    if c = '_' then
      match cs with
      | [] => none
      | d :: ds => if isDigitChar d then parseDigitsAux (acc * 10 + digitVal d) ds else none
    else if isDigitChar c then parseDigitsAux (acc * 10 + digitVal c) cs
    else none

def parseDigits : List Char → Option Nat
  | [] => none
  | c :: cs => if isDigitChar c then parseDigitsAux (digitVal c) cs else none

def stripSpaces (l : List Char) : List Char :=
  ((l.dropWhile isPySpace).reverse.dropWhile isPySpace).reverse

/-- Model of Python `int(s)` on ASCII strings: `none` when `int` raises
`ValueError`. -/
def pyInt (s : String) : Option Int :=
  match stripSpaces s.data with
  | [] => none
  | c :: cs =>
    if c = '+' then (parseDigits cs).map (fun n => (n : Int))
    else if c = '-' then (parseDigits cs).map (fun n => -(n : Int))
    else (parseDigits (c :: cs)).map (fun n => (n : Int))

/-- Test whether `p` is a leading segment of `s`. -/
def isPfx : List Char → List Char → Bool
  | [], _ => true
  | _ :: _, [] => false
  | a :: as, b :: bs => a = b && isPfx as bs

/-- Replace every (leftmost-first, non-overlapping) occurrence of the
non-empty pattern `pat` in `s` by `repl`, as Python `str.replace` does;
`fuel` bounds the recursion and `s.length` always suffices. -/
def replaceAllFuel (pat repl : List Char) : Nat → List Char → List Char
  | 0, s => s
  | fuel + 1, s =>
    if pat ≠ [] ∧ isPfx pat s = true then
      repl ++ replaceAllFuel pat repl fuel (s.drop pat.length)
    else
      match s with
      | [] => []
      | c :: cs => c :: replaceAllFuel pat repl fuel cs

/-- Model of Python `s.replace(pat, repl)` for a non-empty `pat`. -/
def pyReplace (s pat repl : String) : String :=
  ⟨replaceAllFuel pat.data repl.data s.data.length s.data⟩

/-- Model of Python `s.startswith(p)`. -/
def pyStartsWith (s p : String) : Bool := isPfx p.data s.data

/-- The Redis instance, modelled as an association list from keys to
string values (`decode_responses=True`). -/
structure Store where
  pairs : List (String × String)

def Store.keys (st : Store) : List String := st.pairs.map Prod.fst

/-- Model of `redis_client.get k`: association-list lookup. -/
def Store.get (st : Store) (k : String) : Option String := st.pairs.lookup k

/-- Embedding of `get_all_endpoints` (app.py:21-35): scan the `status:*` and `ssl:*`
keys, remove the pattern text from each key with `str.replace` (which
removes every occurrence of the substring, not only the leading one) and
collect the results into a set.  The result list models that set; its
order is an artifact (Python set order is arbitrary). -/
def get_all_endpoints (st : Store) : List String :=
  (((st.keys.filter (fun k => pyStartsWith k "status:")).map
      (fun k => pyReplace k "status:" "")) ++
   ((st.keys.filter (fun k => pyStartsWith k "ssl:")).map
      (fun k => pyReplace k "ssl:" ""))).dedup

/-- The one Python exception that escapes `get_endpoint_data`:
`OverflowError` from `datetime.fromtimestamp` on a timestamp outside the
64-bit `time_t` range (the code catches only `ValueError` and `OSError`). -/
inductive PyErr where
  | overflow
deriving DecidableEq, Repr

/-- Lower bound of `datetime.fromtimestamp(·, tz=utc)`: year 1. -/
def MINTS : Int := -62135596800
/-- Upper bound of `datetime.fromtimestamp(·, tz=utc)`: year 9999. -/
def MAXTS : Int := 253402300799

/-- Model of `datetime.fromtimestamp(t, tz=timezone.utc)`:
`ok (some t)` on success, `ok none` when it raises `ValueError`/`OSError`
(which the dashboard code catches and turns into an unset field), and
`error` when it raises `OverflowError` (timestamp out of range for the
platform `time_t`, i.e. beyond signed 64 bits), which the code does not
catch. -/
def fromtimestampUtc (t : Int) : Except PyErr (Option Int) :=
  if t < -(2 ^ 63) ∨ 2 ^ 63 - 1 < t then .error .overflow
  else if t < MINTS ∨ MAXTS < t then .ok none
  else .ok (some t)

/-- Model of `int(s)` followed by `datetime.fromtimestamp(·, tz=utc)` inside a
`try` that catches `ValueError` and `OSError`: `ok none` models the
caught-and-ignored failure. -/
def parseTs (s : String) : Except PyErr (Option Int) :=
  match pyInt s with
  | none => .ok none
  | some t => fromtimestampUtc t

/-- The dictionary built by `get_endpoint_data` (app.py:40-49);
timestamps are Unix seconds. -/
structure EndpointData where
  endpoint : String
  status : Option String
  status_code : Int
  ssl_expiration : Option Int
  days_left : Option Int
  last_status_update : Option Int
  last_ssl_update : Option Int
  is_https : Bool
deriving DecidableEq, Repr

/-- app.py:51-59: the `status:` fact; Python `if status:` is false for
the empty string, `int(status)` failure is caught and only the raw
string is kept.  Returns `(status_code, status)`. -/
def statusFields (st : Store) (ep : String) : Int × Option String :=
  match st.get ("status:" ++ ep) with
  | some s =>
    if s ≠ "" then
      match pyInt s with
      | some n => (n, some s)
      | none => (0, some s)
    else (0, none)
  | none => (0, none)

/-- app.py:61-71: the `status_updated:` fact, parsed best-effort. -/
def statusUpdatedField (st : Store) (ep : String) : Except PyErr (Option Int) :=
  match st.get ("status_updated:" ++ ep) with
  | some s => if s ≠ "" then parseTs s else .ok none
  | none => .ok none

/-- app.py:73-88: the `ssl:` fact (HTTPS only): on a successful parse
both `ssl_expiration` and `days_left` are set, `days_left` being
`(exp_date - now).days`, i.e. the floor of the difference in seconds
divided by 86400 (Python `timedelta.days` rounds toward minus
infinity).  Returns `(ssl_expiration, days_left)`. -/
def sslFields (st : Store) (now : Int) (ep : String) (is_https : Bool) :
    Except PyErr (Option Int × Option Int) :=
  if is_https then
    match st.get ("ssl:" ++ ep) with
    | some s =>
      if s ≠ "" then
        match parseTs s with
        | .error e => .error e
        | .ok none => .ok (none, none)
        | .ok (some exp) => .ok (some exp, some ((exp - now).fdiv 86400))
      else .ok (none, none)
    | none => .ok (none, none)
  else .ok (none, none)

/-- app.py:90-100: the `ssl_updated:` fact (HTTPS only). -/
def sslUpdatedField (st : Store) (ep : String) (is_https : Bool) :
    Except PyErr (Option Int) :=
  if is_https then
    match st.get ("ssl_updated:" ++ ep) with
    | some s => if s ≠ "" then parseTs s else .ok none
    | none => .ok none
  else .ok none

/-- Embedding of `get_endpoint_data` (app.py:38-102): join the up-to-four facts of one
endpoint into one record; an uncaught `OverflowError` from any of the
three timestamp conversions aborts the whole call. -/
def get_endpoint_data (st : Store) (now : Int) (endpoint : String) :
    Except PyErr EndpointData :=
  match statusUpdatedField st endpoint with
  | .error e => .error e
  | .ok lsu =>
    match sslFields st now endpoint (pyStartsWith endpoint "https://") with
    | .error e => .error e
    | .ok (sslExp, daysLeft) =>
      match sslUpdatedField st endpoint (pyStartsWith endpoint "https://") with
      | .error e => .error e
      | .ok lsslu =>
        .ok { endpoint := endpoint, status := (statusFields st endpoint).2,
              status_code := (statusFields st endpoint).1,
              ssl_expiration := sslExp, days_left := daysLeft,
              last_status_update := lsu, last_ssl_update := lsslu,
              is_https := pyStartsWith endpoint "https://" }

/-- Embedding of `get_status_class` (app.py:105-118). -/
def get_status_class (status_code : Int) : String :=
  if status_code = 0 then "status-error"
  else if 200 ≤ status_code ∧ status_code < 300 then "status-success"
  else if 300 ≤ status_code ∧ status_code < 400 then "status-redirect"
  else if 400 ≤ status_code ∧ status_code < 500 then "status-client-error"
  else if 500 ≤ status_code ∧ status_code < 600 then "status-server-error"
  else "status-unknown"

/-- Embedding of `get_ssl_class` (app.py:121-132). -/
def get_ssl_class : Option Int → String
  | none => ""
  | some days_left =>
    if days_left < 0 then "ssl-expired"
    else if days_left < 7 then "ssl-critical"
    else if days_left < 30 then "ssl-warning"
    else "ssl-ok"

/-- Embedding of `format_time_ago` (app.py:135-151), at whole-second resolution:
`int(x)` on the elapsed-seconds quotient truncates toward zero, which is
`Int.tdiv`. -/
def format_time_ago (now : Int) : Option Int → String
  | none => "Never"
  | some dt =>
    if now - dt < 60 then toString (now - dt) ++ "s ago"
    else if now - dt < 3600 then toString ((now - dt).tdiv 60) ++ "m ago"
    else if now - dt < 86400 then toString ((now - dt).tdiv 3600) ++ "h ago"
    else toString ((now - dt).tdiv 86400) ++ "d ago"

/-- The decorated copy produced by `prepare_endpoint_display_data`
(app.py:154-183): the underlying record plus five derived strings. -/
structure DisplayData where
  data : EndpointData
  status_class : String
  ssl_class : String
  status_text : String
  ssl_text : String
  update_text : String
deriving DecidableEq, Repr

/-- Embedding of `prepare_endpoint_display_data` (app.py:154-183). Python's
`a or b` on two optional timestamps yields `a` when set (a `datetime` is
always truthy) and `b` otherwise. -/
def prepare_endpoint_display_data (now : Int) (d : EndpointData) : DisplayData :=
  { data := d
    status_class := get_status_class d.status_code
    ssl_class := get_ssl_class d.days_left
    status_text := if d.status_code ≠ 0 then toString d.status_code else "N/A"
    ssl_text :=
      if d.is_https then
        match d.days_left with
        | some dl =>
          if dl < 0 then "Expired " ++ toString dl.natAbs ++ " days ago"
          else toString dl ++ " days left"
        | none => "Checking..."
      else "HTTP only"
    update_text :=
      format_time_ago now
        (match d.last_status_update with
         | some t => some t
         | none => d.last_ssl_update) }

/-- The sort key comparison of app.py:198-203 and 247-252:
`(x is None, x if x is not None else inf)` compared lexicographically. -/
def optKeyLe : Option Int → Option Int → Bool
  | none, none => true
  | none, some _ => false
  | some _, none => true
  | some x, some y => x ≤ y

def sleKey (a b : EndpointData) : Bool := optKeyLe a.days_left b.days_left

/-- Insert into an already ranked list, before the first element not
strictly below the inserted one (a stable insertion). -/
def insertRanked (x : EndpointData) : List EndpointData → List EndpointData
  | [] => [x]
  | y :: ys => if sleKey x y then x :: y :: ys else y :: insertRanked x ys

/-- Embedding of `endpoint_data.sort(key=lambda x: (x["days_left"] is None, ...))`
(app.py:197-203): Python's `list.sort` is a stable sort by the key; a
stable sort by a total preorder is extensionally unique, so stable
insertion sort is the same function. -/
def rank : List EndpointData → List EndpointData
  | [] => []
  | x :: xs => insertRanked x (rank xs)

/-- What the `index` route (app.py:186-226) passes to the template. -/
structure IndexPage where
  endpoints : List DisplayData
  total_endpoints : Nat
  healthy_count : Nat
  ssl_warning_count : Nat
deriving DecidableEq, Repr

/-- The `index` route (app.py:186-226) up to templating: join every
discovered endpoint, sort, decorate, and count.  Truthiness in
`e["status_code"] and 200 <= e["status_code"] < 300` is the explicit
`status_code ≠ 0` conjunct. -/
def index (st : Store) (now : Int) : Except PyErr IndexPage :=
  match (get_all_endpoints st).mapM (get_endpoint_data st now) with
  | .error e => .error e
  | .ok endpoint_data =>
    .ok { endpoints := (rank endpoint_data).map (prepare_endpoint_display_data now)
          total_endpoints := (rank endpoint_data).length
          healthy_count :=
            ((rank endpoint_data).filter (fun e =>
              decide (e.status_code ≠ 0 ∧ 200 ≤ e.status_code ∧
                e.status_code < 300))).length
          ssl_warning_count :=
            ((rank endpoint_data).filter (fun e =>
              match e.days_left with
              | some d => decide (d < 30)
              | none => false)).length }

/-- The `api_endpoints` route (app.py:229-254) up to ISO-8601 rendering
of the timestamp fields: the same join and the same sort as the
dashboard page, emitted with a total count. -/
def api_endpoints (st : Store) (now : Int) :
    Except PyErr (List EndpointData × Nat) :=
  match (get_all_endpoints st).mapM (get_endpoint_data st now) with
  | .error e => .error e
  | .ok endpoint_data => .ok (rank endpoint_data, (rank endpoint_data).length)

/-- A record with only the identifier and `days_left` populated, for
concrete ranking examples. -/
def mkRec (nm : String) (d : Option Int) : EndpointData :=
  { endpoint := nm, status := none, status_code := 0, ssl_expiration := none,
    days_left := d, last_status_update := none, last_ssl_update := none,
    is_https := false }

/-- One key class of the ranking key: records whose `days_left` is `d`. -/
def daysEq (d : Option Int) (r : EndpointData) : Bool := decide (r.days_left = d)

/-- A store holding a liveness key whose endpoint identifier itself
contains the text `status:`. -/
def stC1 : Store := ⟨[("status:a-status:b", "200")]⟩

/-- A store whose status fact is the parsable string `0`. -/
def stC2 : Store := ⟨[("status:http://a", "0")]⟩

/-- A store with an ordinary numeric status fact. -/
def stC2w : Store := ⟨[("status:http://a", "404")]⟩

/-- The record joined from `stC2w` for `http://a`. -/
def rC2w : EndpointData :=
  { endpoint := "http://a", status := some "404", status_code := 404,
    ssl_expiration := none, days_left := none, last_status_update := none,
    last_ssl_update := none, is_https := false }

/-- A store whose certificate expired 3600 seconds before `now = 1000000`. -/
def stC3 : Store := ⟨[("ssl:https://a", "996400")]⟩

/-- The record joined from `stC3` for `https://a` at `now = 1000000`:
the certificate expired one hour ago, and `timedelta.days` floors, so
`days_left` is `-1`. -/
def rC3 : EndpointData :=
  { endpoint := "https://a", status := none, status_code := 0,
    ssl_expiration := some 996400, days_left := some (-1),
    last_status_update := none, last_ssl_update := none, is_https := true }

/-- A store whose certificate expires 1000000 seconds after `now = 0`. -/
def stC3w : Store := ⟨[("ssl:https://w", "1000000")]⟩

/-- The record joined from `stC3w` for `https://w` at `now = 0`. -/
def rC3w : EndpointData :=
  { endpoint := "https://w", status := none, status_code := 0,
    ssl_expiration := some 1000000, days_left := some 11,
    last_status_update := none, last_ssl_update := none, is_https := true }

/-- A store whose `status_updated` fact is `10 ^ 19` seconds, beyond the
64-bit `time_t` range. -/
def stC4 : Store := ⟨[("status_updated:http://a", "10000000000000000000")]⟩

/-- A store with one HTTPS endpoint (with certificate data) and one HTTP
endpoint. -/
def demoStore : Store :=
  ⟨[("status:https://a", "200"), ("ssl:https://a", "1864000"),
    ("status:http://b", "500")]⟩

/-- The record joined from `demoStore` for `http://b`. -/
def demoHttp : EndpointData :=
  { endpoint := "http://b", status := some "500", status_code := 500,
    ssl_expiration := none, days_left := none, last_status_update := none,
    last_ssl_update := none, is_https := false }

/-- The record joined from `demoStore` for `https://a` at `now = 1000000`. -/
def demoHttps : EndpointData :=
  { endpoint := "https://a", status := some "200", status_code := 200,
    ssl_expiration := some 1864000, days_left := some 10,
    last_status_update := none, last_ssl_update := none, is_https := true }

/-- The records joined from `demoStore` at `now = 1000000`, in discovery
order. -/
def demoJoined : List EndpointData := [demoHttp, demoHttps]

/-- The list `demoJoined` in ranked order: the HTTPS record (10 days
left) before the HTTP record (no certificate data). -/
def demoRanked : List EndpointData := [demoHttps, demoHttp]

/-- The dashboard page built from `demoStore` at `now = 1000000`. -/
def demoPage : IndexPage :=
  { endpoints :=
      [{ data := demoHttps, status_class := "status-success",
         ssl_class := "ssl-warning", status_text := "200",
         ssl_text := "10 days left", update_text := "Never" },
       { data := demoHttp, status_class := "status-server-error",
         ssl_class := "", status_text := "500",
         ssl_text := "HTTP only", update_text := "Never" }]
    total_endpoints := 2
    healthy_count := 1
    ssl_warning_count := 1 }

/- ------------------------------------------------------------------ -/
/- Helper lemmas.                                                      -/
/- ------------------------------------------------------------------ -/

/-- Every field of a successfully joined record, in terms of the four
per-fact helpers. -/
theorem fields_of_ok {st : Store} {now : Int} {ep : String} {r : EndpointData}
    (h : get_endpoint_data st now ep = .ok r) :
    r.endpoint = ep ∧ r.is_https = pyStartsWith ep "https://" ∧
    r.status_code = (statusFields st ep).1 ∧ r.status = (statusFields st ep).2 ∧
    statusUpdatedField st ep = .ok r.last_status_update ∧
    sslFields st now ep (pyStartsWith ep "https://") =
      .ok (r.ssl_expiration, r.days_left) ∧
    sslUpdatedField st ep (pyStartsWith ep "https://") = .ok r.last_ssl_update := by
  unfold get_endpoint_data at h
  cases h1 : statusUpdatedField st ep with
  | error e => rw [h1] at h; exact absurd h (by simp)
  | ok lsu =>
    rw [h1] at h
    cases h2 : sslFields st now ep (pyStartsWith ep "https://") with
    | error e => rw [h2] at h; exact absurd h (by simp)
    | ok p =>
      obtain ⟨sslExp, daysLeft⟩ := p
      rw [h2] at h
      cases h3 : sslUpdatedField st ep (pyStartsWith ep "https://") with
      | error e => rw [h3] at h; exact absurd h (by simp)
      | ok lsslu =>
        rw [h3] at h
        obtain ⟨re, rst, rc, rse, rdl, rlsu, rlsslu, rhttps⟩ := r
        simp only [Except.ok.injEq, EndpointData.mk.injEq] at h
        obtain ⟨he, hst, hc, hse, hdl, hlsu2, hlsslu2, hh⟩ := h
        subst he; subst hst; subst hc; subst hse; subst hdl
        subst hlsu2; subst hlsslu2; subst hh
        exact ⟨rfl, rfl, rfl, rfl, rfl, rfl, rfl⟩

/-- A successful certificate lookup either leaves both certificate
fields unset or sets both, and sets neither for a non-HTTPS endpoint. -/
theorem sslFields_ok_cases {st : Store} {now : Int} {ep : String} {b : Bool}
    {o1 o2 : Option Int} (h : sslFields st now ep b = .ok (o1, o2)) :
    (o1 = none ∧ o2 = none) ∨
    (b = true ∧ ∃ e, o1 = some e ∧ o2 = some ((e - now).fdiv 86400)) := by
  unfold sslFields at h
  cases b with
  | false =>
    simp only [Bool.false_eq_true, if_false, Except.ok.injEq, Prod.mk.injEq] at h
    exact Or.inl ⟨h.1.symm, h.2.symm⟩
  | true =>
    simp only [if_true] at h
    cases hg : st.get ("ssl:" ++ ep) with
    | none =>
      simp only [hg, Except.ok.injEq, Prod.mk.injEq] at h
      exact Or.inl ⟨h.1.symm, h.2.symm⟩
    | some s =>
      simp only [hg] at h
      by_cases hs : s ≠ ""
      · rw [if_pos hs] at h
        cases hp : parseTs s with
        | error e => simp only [hp] at h; exact absurd h (by simp)
        | ok o =>
          simp only [hp] at h
          cases o with
          | none =>
            simp only [Except.ok.injEq, Prod.mk.injEq] at h
            exact Or.inl ⟨h.1.symm, h.2.symm⟩
          | some e =>
            simp only [Except.ok.injEq, Prod.mk.injEq] at h
            exact Or.inr ⟨rfl, e, h.1.symm, h.2.symm⟩
      · rw [if_neg hs] at h
        simp only [Except.ok.injEq, Prod.mk.injEq] at h
        exact Or.inl ⟨h.1.symm, h.2.symm⟩

theorem sslUpdatedField_false {st : Store} {ep : String} :
    sslUpdatedField st ep false = .ok none := rfl

/-- The certificate branch on a present, non-empty, parsable, in-range
expiration fact. -/
theorem sslFields_parse {st : Store} {now : Int} {ep : String} {s : String}
    {e : Int} (hs : st.get ("ssl:" ++ ep) = some s) (hne : s ≠ "")
    (hp : pyInt s = some e) (hlo : MINTS ≤ e) (hhi : e ≤ MAXTS) :
    sslFields st now ep true = .ok (some e, some ((e - now).fdiv 86400)) := by
  have hlo' : -62135596800 ≤ e := hlo
  have hhi' : e ≤ 253402300799 := hhi
  unfold sslFields parseTs fromtimestampUtc
  simp only [if_true, hs, if_pos hne, hp]
  rw [if_neg (by omega), if_neg (by unfold MINTS MAXTS; omega)]

theorem optKeyLe_total (u v : Option Int) : optKeyLe u v = true ∨ optKeyLe v u = true := by
  cases u <;> cases v
  all_goals simp [optKeyLe]
  all_goals omega

theorem optKeyLe_trans {u v w : Option Int} (h1 : optKeyLe u v = true)
    (h2 : optKeyLe v w = true) : optKeyLe u w = true := by
  cases u <;> cases v <;> cases w
  all_goals simp_all [optKeyLe]
  all_goals omega

/-- A key comparison that fails is strict, so the two keys differ. -/
theorem optKeyLe_false_ne {u v : Option Int} (h : optKeyLe u v = false) : v ≠ u := by
  cases u <;> cases v
  all_goals simp_all [optKeyLe]
  all_goals omega

theorem sleKey_total (a b : EndpointData) : sleKey a b = true ∨ sleKey b a = true :=
  optKeyLe_total a.days_left b.days_left

theorem sleKey_trans {a b c : EndpointData} (h1 : sleKey a b = true)
    (h2 : sleKey b c = true) : sleKey a c = true :=
  optKeyLe_trans h1 h2

/-- Elements the insertion walks past have a key strictly below the
inserted element's, hence a different `days_left`. -/
theorem sleKey_false_ne {x y : EndpointData} (h : sleKey x y = false) :
    y.days_left ≠ x.days_left :=
  optKeyLe_false_ne h

theorem insertRanked_perm (x : EndpointData) (l : List EndpointData) :
    (insertRanked x l).Perm (x :: l) := by
  induction l with
  | nil => simp [insertRanked]
  | cons y ys ih =>
    unfold insertRanked
    by_cases h : sleKey x y = true
    · rw [if_pos h]
    · rw [if_neg h]
      exact (ih.cons y).trans (List.Perm.swap x y ys)

theorem insertRanked_mem {x z : EndpointData} {l : List EndpointData}
    (h : z ∈ insertRanked x l) : z = x ∨ z ∈ l :=
  List.mem_cons.mp ((insertRanked_perm x l).mem_iff.mp h)

theorem insertRanked_pairwise {x : EndpointData} {l : List EndpointData}
    (hl : l.Pairwise (fun a b => sleKey a b = true)) :
    (insertRanked x l).Pairwise (fun a b => sleKey a b = true) := by
  induction l with
  | nil => simp [insertRanked]
  | cons y ys ih =>
    obtain ⟨hy, hys⟩ := List.pairwise_cons.mp hl
    unfold insertRanked
    by_cases h : sleKey x y = true
    · rw [if_pos h]
      refine List.pairwise_cons.mpr ⟨?_, hl⟩
      intro z hz
      rcases List.mem_cons.mp hz with hz | hz
      · subst hz; exact h
      · exact sleKey_trans h (hy z hz)
    · rw [if_neg h]
      refine List.pairwise_cons.mpr ⟨?_, ih hys⟩
      intro z hz
      rcases insertRanked_mem hz with hz | hz
      · subst hz
        rcases sleKey_total y z with ht | ht
        · exact ht
        · exact absurd ht (by simp_all)
      · exact hy z hz

theorem rank_perm (l : List EndpointData) : (rank l).Perm l := by
  induction l with
  | nil => simp [rank]
  | cons x xs ih => exact (insertRanked_perm x (rank xs)).trans (ih.cons x)

theorem rank_pairwise (l : List EndpointData) :
    (rank l).Pairwise (fun a b => sleKey a b = true) := by
  induction l with
  | nil => simp [rank]
  | cons x xs ih => exact insertRanked_pairwise ih

theorem filter_insertRanked_ne {x : EndpointData} {d : Option Int}
    (l : List EndpointData) (hx : x.days_left ≠ d) :
    (insertRanked x l).filter (daysEq d) = l.filter (daysEq d) := by
  induction l with
  | nil => simp [insertRanked, daysEq, hx]
  | cons y ys ih =>
    unfold insertRanked
    by_cases h : sleKey x y = true
    · rw [if_pos h]
      simp [List.filter_cons, daysEq, hx]
    · rw [if_neg h]
      simp only [List.filter_cons, ih]

theorem filter_insertRanked_eq {x : EndpointData} (l : List EndpointData) :
    (insertRanked x l).filter (daysEq x.days_left) =
      x :: l.filter (daysEq x.days_left) := by
  induction l with
  | nil => simp [insertRanked, daysEq]
  | cons y ys ih =>
    unfold insertRanked
    by_cases h : sleKey x y = true
    · rw [if_pos h]
      simp [List.filter_cons, daysEq]
    · rw [if_neg h]
      have hy : y.days_left ≠ x.days_left := sleKey_false_ne (by simp_all)
      simp only [List.filter_cons, ih]
      simp [daysEq, hy]

/-- Stability of the ranking: each `days_left` class comes out in its
input order. -/
theorem rank_filter (d : Option Int) (l : List EndpointData) :
    (rank l).filter (daysEq d) = l.filter (daysEq d) := by
  induction l with
  | nil => rfl
  | cons x xs ih =>
    show (insertRanked x (rank xs)).filter _ = _
    by_cases hx : x.days_left = d
    · subst hx
      rw [filter_insertRanked_eq, ih]
      simp [List.filter_cons, daysEq]
    · rw [filter_insertRanked_ne _ hx, ih]
      simp [List.filter_cons, daysEq, hx]

/- ------------------------------------------------------------------ -/
/- Claims.                                                             -/
/- ------------------------------------------------------------------ -/

/-- C1 (counterexample): the identifier `a-status:b` is present under
the liveness namespace (key `status:a-status:b`), yet discovery does not
return that exact identifier: `str.replace` also removes the interior
occurrence of `status:`, so the recovered identifier is `a-b`. -/
theorem C1_counterexample :
    ("status:" ++ "a-status:b") ∈ stC1.keys ∧
    "a-status:b" ∉ get_all_endpoints stC1 ∧
    get_all_endpoints stC1 = ["a-b"] :=
  ⟨by decide, by decide, by decide⟩

/-- C1 (amended): discovery returns exactly the deduplicated union, over
the two namespaces, of each matching key with every occurrence of the
namespace text removed (Python `str.replace` semantics); for keys whose
identifier part does not contain the namespace text this coincides with
stripping the leading namespace text. -/
theorem C1_thm (st : Store) (e : String) :
    e ∈ get_all_endpoints st ↔
      ((∃ k, k ∈ st.keys ∧ pyStartsWith k "status:" = true ∧
          e = pyReplace k "status:" "") ∨
       (∃ k, k ∈ st.keys ∧ pyStartsWith k "ssl:" = true ∧
          e = pyReplace k "ssl:" "")) := by
  unfold get_all_endpoints
  simp only [List.mem_dedup, List.mem_append, List.mem_map, List.mem_filter]
  constructor
  · rintro (⟨k, ⟨hk, hp⟩, he⟩ | ⟨k, ⟨hk, hp⟩, he⟩)
    · exact Or.inl ⟨k, hk, hp, he.symm⟩
    · exact Or.inr ⟨k, hk, hp, he.symm⟩
  · rintro (⟨k, hk, hp, he⟩ | ⟨k, hk, hp, he⟩)
    · exact Or.inl ⟨k, ⟨hk, hp⟩, he.symm⟩
    · exact Or.inr ⟨k, ⟨hk, hp⟩, he.symm⟩

/-- C4 (code bug): a syntactically valid integer `status_updated` fact
of `10 ^ 19` seconds makes `datetime.fromtimestamp` raise
`OverflowError`, which the `except (ValueError, OSError)` handler does
not catch, so the join fails outward, contradicting the claimed
never-fails-outward guarantee. -/
theorem C4_bug :
    pyInt "10000000000000000000" = some 10000000000000000000 ∧
    get_endpoint_data stC4 0 "http://a" = .error .overflow :=
  ⟨rfl, rfl⟩

/-- C5: `get_ssl_class` is total over optional day counts, with unset
mapped to the empty (none) class, negative days to expired, `[0,7)` to
critical, `[7,30)` to warning and `[30,∞)` to ok; ties at 7 and 30 fall
into the less severe bucket. -/
theorem C5_thm :
    get_ssl_class none = "" ∧
    (∀ d : Int, d < 0 → get_ssl_class (some d) = "ssl-expired") ∧
    (∀ d : Int, 0 ≤ d → d < 7 → get_ssl_class (some d) = "ssl-critical") ∧
    (∀ d : Int, 7 ≤ d → d < 30 → get_ssl_class (some d) = "ssl-warning") ∧
    (∀ d : Int, 30 ≤ d → get_ssl_class (some d) = "ssl-ok") ∧
    get_ssl_class (some (-1)) = "ssl-expired" ∧
    get_ssl_class (some 0) = "ssl-critical" ∧
    get_ssl_class (some 6) = "ssl-critical" ∧
    get_ssl_class (some 7) = "ssl-warning" ∧
    get_ssl_class (some 29) = "ssl-warning" ∧
    get_ssl_class (some 30) = "ssl-ok" := by
  refine ⟨rfl, ?_, ?_, ?_, ?_, by decide, by decide, by decide, by decide,
    by decide, by decide⟩
  · intro d h
    simp only [get_ssl_class]
    rw [if_pos h]
  · intro d h0 h7
    simp only [get_ssl_class]
    rw [if_neg (by omega), if_pos h7]
  · intro d h7 h30
    simp only [get_ssl_class]
    rw [if_neg (by omega), if_neg (by omega), if_pos h30]
  · intro d h30
    simp only [get_ssl_class]
    rw [if_neg (by omega), if_neg (by omega), if_neg (by omega)]

/-- Witness for C5 at a concrete expired certificate. -/
theorem C5_witness : get_ssl_class (some (-5)) = "ssl-expired" :=
  C5_thm.2.1 (-5) (by omega)

/-- C9: `format_time_ago` is total: an unset timestamp renders as
`Never`, and the elapsed seconds are bucketed at 60, 3600 and 86400 with
the displayed count truncated toward zero; `45` seconds render as
`45s ago` and `3661` seconds as `1h ago`. -/
theorem C9_thm :
    (∀ now : Int, format_time_ago now none = "Never") ∧
    (∀ now dt : Int, now - dt < 60 →
      format_time_ago now (some dt) = toString (now - dt) ++ "s ago") ∧
    (∀ now dt : Int, 60 ≤ now - dt → now - dt < 3600 →
      format_time_ago now (some dt) = toString ((now - dt).tdiv 60) ++ "m ago") ∧
    (∀ now dt : Int, 3600 ≤ now - dt → now - dt < 86400 →
      format_time_ago now (some dt) = toString ((now - dt).tdiv 3600) ++ "h ago") ∧
    (∀ now dt : Int, 86400 ≤ now - dt →
      format_time_ago now (some dt) = toString ((now - dt).tdiv 86400) ++ "d ago") ∧
    format_time_ago 45 (some 0) = "45s ago" ∧
    format_time_ago 3661 (some 0) = "1h ago" := by
  refine ⟨fun now => rfl, ?_, ?_, ?_, ?_, by decide, by decide⟩
  · intro now dt h
    simp only [format_time_ago]
    rw [if_pos h]
  · intro now dt h60 h
    simp only [format_time_ago]
    rw [if_neg (by omega), if_pos h]
  · intro now dt h3600 h
    simp only [format_time_ago]
    rw [if_neg (by omega), if_neg (by omega), if_pos h]
  · intro now dt h
    simp only [format_time_ago]
    rw [if_neg (by omega), if_neg (by omega), if_neg (by omega)]

/-- Witness for C9: 45 elapsed seconds land in the seconds bucket. -/
theorem C9_witness :
    format_time_ago 45 (some 0) = toString ((45 : Int) - 0) ++ "s ago" :=
  C9_thm.2.1 45 0 (by omega)

/-- C10: the displayed age is computed from `last_status_update` when it
is set, otherwise from `last_ssl_update`, and reads `Never` when both
are unset (Python `a or b` on optional timestamps; a `datetime` is
always truthy). -/
theorem C10_thm (now : Int) (d : EndpointData) :
    (∀ t : Int, d.last_status_update = some t →
      (prepare_endpoint_display_data now d).update_text =
        format_time_ago now (some t)) ∧
    (d.last_status_update = none →
      (prepare_endpoint_display_data now d).update_text =
        format_time_ago now d.last_ssl_update) ∧
    (d.last_status_update = none → d.last_ssl_update = none →
      (prepare_endpoint_display_data now d).update_text = "Never") := by
  refine ⟨?_, ?_, ?_⟩
  · intro t ht
    simp [prepare_endpoint_display_data, ht]
  · intro h
    simp [prepare_endpoint_display_data, h]
  · intro h1 h2
    simp [prepare_endpoint_display_data, h1, h2, format_time_ago]

/-- Witness for C10 at a record with both timestamps unset. -/
theorem C10_witness :
    (prepare_endpoint_display_data 0 (mkRec "n" none)).update_text = "Never" :=
  (C10_thm 0 (mkRec "n" none)).2.2 rfl rfl

/-- C2 (counterexample): the stored status fact `0` is present and
integer-parsable, yet `status_code` is 0, refuting the claimed
equivalence that `statusCode == 0` holds only for an absent or
unparsable fact. -/
theorem C2_counterexample :
    pyInt "0" = some 0 ∧
    get_endpoint_data stC2 0 "http://a" =
      .ok { endpoint := "http://a", status := some "0", status_code := 0,
            ssl_expiration := none, days_left := none,
            last_status_update := none, last_ssl_update := none,
            is_https := false } :=
  ⟨rfl, rfl⟩

/-- C2 (amended): a present, non-empty, parsable status fact sets
`status_code` to the parsed integer and keeps the raw string; a present,
non-empty, unparsable fact sets `status_code` to 0 and keeps the raw
string; an absent or empty fact leaves `status_code` 0 and the raw
string unset; and `status_code = 0` iff the fact is absent, empty,
unparsable, or parses to the integer 0. -/
theorem C2_thm (st : Store) (now : Int) (ep : String) (r : EndpointData)
    (h : get_endpoint_data st now ep = Except.ok r) :
    (∀ s : String, st.get ("status:" ++ ep) = some s → s ≠ "" →
      (∀ n : Int, pyInt s = some n → r.status_code = n ∧ r.status = some s) ∧
      (pyInt s = none → r.status_code = 0 ∧ r.status = some s)) ∧
    (st.get ("status:" ++ ep) = none → r.status_code = 0 ∧ r.status = none) ∧
    (st.get ("status:" ++ ep) = some "" → r.status_code = 0 ∧ r.status = none) ∧
    (r.status_code = 0 ↔
      ∀ s : String, st.get ("status:" ++ ep) = some s →
        s = "" ∨ pyInt s = none ∨ pyInt s = some 0) := by
  obtain ⟨-, -, hc, hsr, -, -, -⟩ := fields_of_ok h
  cases hg : st.get ("status:" ++ ep) with
  | none =>
    have hfields : statusFields st ep = (0, none) := by
      unfold statusFields
      simp only [hg]
    rw [hfields] at hc hsr
    refine ⟨?_, fun _ => ⟨hc, hsr⟩, ?_, ?_⟩
    · intro s hs
      exact absurd hs (by simp)
    · intro h0
      exact absurd h0 (by simp)
    · exact ⟨fun _ s hs => absurd hs (by simp), fun _ => hc⟩
  | some s =>
    by_cases hse : s = ""
    · subst hse
      have hfields : statusFields st ep = (0, none) := by
        unfold statusFields
        simp only [hg]
        rw [if_neg (by decide)]
      rw [hfields] at hc hsr
      refine ⟨?_, ?_, fun _ => ⟨hc, hsr⟩, ?_⟩
      · intro s' hs' hne'
        rw [Option.some.injEq] at hs'
        exact absurd hs'.symm hne'
      · intro h0
        exact absurd h0 (by simp)
      · refine ⟨fun _ s' hs' => ?_, fun _ => hc⟩
        rw [Option.some.injEq] at hs'
        exact Or.inl hs'.symm
    · have hne : s ≠ "" := hse
      cases hp : pyInt s with
      | some n =>
        have hfields : statusFields st ep = (n, some s) := by
          unfold statusFields
          simp only [hg]
          rw [if_pos hne]
          simp only [hp]
        rw [hfields] at hc hsr
        refine ⟨?_, ?_, ?_, ?_⟩
        · intro s' hs' hne'
          rw [Option.some.injEq] at hs'
          subst hs'
          refine ⟨?_, ?_⟩
          · intro n' hp'
            rw [hp, Option.some.injEq] at hp'
            subst hp'
            exact ⟨hc, hsr⟩
          · intro hpn
            rw [hp] at hpn
            exact absurd hpn (by simp)
        · intro h0
          exact absurd h0 (by simp)
        · intro h0
          rw [Option.some.injEq] at h0
          exact absurd h0 hne
        · constructor
          · intro h0 s' hs'
            rw [Option.some.injEq] at hs'
            subst hs'
            refine Or.inr (Or.inr ?_)
            have hn0 : n = 0 := hc.symm.trans h0
            rw [hp, hn0]
          · intro hall
            rcases hall s rfl with h1 | h1 | h1
            · exact absurd h1 hne
            · rw [hp] at h1
              exact absurd h1 (by simp)
            · rw [hp, Option.some.injEq] at h1
              rw [hc, h1]
      | none =>
        have hfields : statusFields st ep = (0, some s) := by
          unfold statusFields
          simp only [hg]
          rw [if_pos hne]
          simp only [hp]
        rw [hfields] at hc hsr
        refine ⟨?_, ?_, ?_, ?_⟩
        · intro s' hs' hne'
          rw [Option.some.injEq] at hs'
          subst hs'
          refine ⟨?_, fun _ => ⟨hc, hsr⟩⟩
          intro n' hp'
          rw [hp] at hp'
          exact absurd hp' (by simp)
        · intro h0
          exact absurd h0 (by simp)
        · intro h0
          rw [Option.some.injEq] at h0
          exact absurd h0 hne
        · refine ⟨fun _ s' hs' => ?_, fun _ => hc⟩
          rw [Option.some.injEq] at hs'
          subst hs'
          exact Or.inr (Or.inl hp)

/-- Witness for C2 at a store whose status fact is `404`. -/
theorem C2_witness : rC2w.status_code = 404 ∧ rC2w.status = some "404" :=
  ((C2_thm stC2w 0 "http://a" rC2w rfl).1 "404" rfl (by decide)).1 404 rfl

/-- C3 (counterexample): a certificate that expired 3600 seconds before
`now` yields `days_left = -1` (Python `timedelta.days` floors), while
the claimed truncated quotient `-3600 / 86400` is 0; so `days_left` is
negative where the claim says it is zero. -/
theorem C3_counterexample :
    get_endpoint_data stC3 1000000 "https://a" = .ok rC3 ∧
    rC3.days_left = some (-1) ∧
    Int.tdiv (996400 - 1000000) 86400 = 0 :=
  ⟨rfl, rfl, by decide⟩

/-- C3 (amended): for an HTTPS endpoint with a present, parsable,
in-range expiration fact, `days_left` is the floor (toward minus
infinity) of the seconds difference divided by 86400; it is negative
exactly when the expiration is strictly before `now`, and it equals the
truncated quotient whenever the certificate is not yet expired. -/
theorem C3_thm (st : Store) (now : Int) (ep : String) (r : EndpointData)
    (s : String) (e : Int)
    (h : get_endpoint_data st now ep = Except.ok r)
    (hH : pyStartsWith ep "https://" = true)
    (hs : st.get ("ssl:" ++ ep) = some s) (hne : s ≠ "")
    (hp : pyInt s = some e) (hlo : MINTS ≤ e) (hhi : e ≤ MAXTS) :
    r.ssl_expiration = some e ∧
    r.days_left = some ((e - now).fdiv 86400) ∧
    ((e - now).fdiv 86400 < 0 ↔ e - now < 0) ∧
    (0 ≤ e - now → (e - now).fdiv 86400 = (e - now).tdiv 86400) := by
  obtain ⟨-, -, -, -, -, hssl, -⟩ := fields_of_ok h
  rw [hH] at hssl
  rw [sslFields_parse hs hne hp hlo hhi] at hssl
  rw [Except.ok.injEq, Prod.mk.injEq] at hssl
  obtain ⟨h1, h2⟩ := hssl
  refine ⟨h1.symm, h2.symm, ?_, ?_⟩
  · rw [Int.fdiv_eq_ediv _ (by norm_num)]
    omega
  · intro hnn
    rw [Int.fdiv_eq_ediv _ (by norm_num), Int.tdiv_eq_ediv hnn (by norm_num)]

/-- Witness for C3 at a certificate 1000000 seconds in the future. -/
theorem C3_witness :
    rC3w.ssl_expiration = some 1000000 ∧
    rC3w.days_left = some ((1000000 - 0 : Int).fdiv 86400) ∧
    (((1000000 : Int) - 0).fdiv 86400 < 0 ↔ (1000000 : Int) - 0 < 0) ∧
    (0 ≤ (1000000 : Int) - 0 →
      ((1000000 : Int) - 0).fdiv 86400 = ((1000000 : Int) - 0).tdiv 86400) :=
  C3_thm stC3w 0 "https://w" rC3w "1000000" 1000000 rfl rfl rfl (by decide)
    rfl (by decide) (by decide)

/-- C7: a joined record has `days_left` set iff `ssl_expiration` is set
and the endpoint is HTTPS, and a non-HTTPS record never has any of the
three certificate fields set, whatever the store holds. -/
theorem C7_thm (st : Store) (now : Int) (ep : String) (r : EndpointData)
    (h : get_endpoint_data st now ep = Except.ok r) :
    (r.days_left.isSome = true ↔
      r.ssl_expiration.isSome = true ∧ r.is_https = true) ∧
    (r.is_https = false →
      r.ssl_expiration = none ∧ r.last_ssl_update = none ∧ r.days_left = none) := by
  obtain ⟨-, hhttps, -, -, -, hssl, hupd⟩ := fields_of_ok h
  rcases sslFields_ok_cases hssl with ⟨h1, h2⟩ | ⟨hb, e, h1, h2⟩
  · constructor
    · rw [h1, h2]
      simp
    · intro hfalse
      refine ⟨h1, ?_, h2⟩
      rw [hhttps] at hfalse
      rw [hfalse, sslUpdatedField_false, Except.ok.injEq] at hupd
      exact hupd.symm
  · have hh : r.is_https = true := hhttps.trans hb
    constructor
    · rw [h1, h2]
      simp [hh]
    · intro hfalse
      rw [hh] at hfalse
      exact absurd hfalse (by simp)

/-- Witness for C7 at a joined HTTPS record with certificate data. -/
theorem C7_witness :
    rC3w.days_left.isSome = true ↔
      rC3w.ssl_expiration.isSome = true ∧ rC3w.is_https = true :=
  (C7_thm stC3w 0 "https://w" rC3w rfl).1

/-- C6: the ranking is a stable total-preorder sort: the output is a
permutation of the input, consecutive elements are ordered by the key
(set `days_left` ascending, unset after every set one), every
`days_left` class keeps its input order (stability), the spec example
`[None, 5, -2, None, 30]` ranks as `[-2, 5, 30, None, None]` with the
two unset records in input order, and the JSON API emits the same
ranked order with its total count. -/
theorem C6_thm :
    (∀ l : List EndpointData, (rank l).Perm l) ∧
    (∀ l : List EndpointData,
      (rank l).Pairwise (fun a b => sleKey a b = true)) ∧
    (∀ (l : List EndpointData) (d : Option Int),
      (rank l).filter (daysEq d) = l.filter (daysEq d)) ∧
    (rank [mkRec "n1" none, mkRec "n2" (some 5), mkRec "n3" (some (-2)),
           mkRec "n4" none, mkRec "n5" (some 30)] =
      [mkRec "n3" (some (-2)), mkRec "n2" (some 5), mkRec "n5" (some 30),
       mkRec "n1" none, mkRec "n4" none]) ∧
    (∀ (st : Store) (now : Int) (l : List EndpointData)
        (res : List EndpointData × Nat),
      (get_all_endpoints st).mapM (get_endpoint_data st now) = .ok l →
      api_endpoints st now = .ok res →
      res.1 = rank l ∧ res.2 = (rank l).length) := by
  refine ⟨rank_perm, rank_pairwise, fun l d => rank_filter d l, by decide, ?_⟩
  intro st now l res hl hres
  unfold api_endpoints at hres
  simp only [hl] at hres
  rw [Except.ok.injEq] at hres
  subst hres
  exact ⟨rfl, rfl⟩

/-- Witness for C6: the API on `demoStore` emits the ranked order. -/
theorem C6_witness :
    (demoRanked, 2).1 = rank demoJoined ∧
    (demoRanked, 2).2 = (rank demoJoined).length :=
  C6_thm.2.2.2.2 demoStore 1000000 demoJoined (demoRanked, 2) rfl rfl

/-- C8: the dashboard counters: `total_endpoints` is the number of
records, `healthy_count` counts records with `status_code` in
`[200,300)` (the code's extra truthiness test on `status_code` is
redundant there), and `ssl_warning_count` counts records whose
`days_left` is set and strictly below 30, negative values included. -/
theorem C8_thm (st : Store) (now : Int) (l : List EndpointData) (p : IndexPage)
    (hl : (get_all_endpoints st).mapM (get_endpoint_data st now) = .ok l)
    (hp : index st now = .ok p) :
    p.total_endpoints = l.length ∧
    p.healthy_count = (l.filter (fun e =>
      decide (200 ≤ e.status_code ∧ e.status_code < 300))).length ∧
    p.ssl_warning_count = (l.filter (fun e =>
      e.days_left.any (fun d => decide (d < 30)))).length := by
  unfold index at hp
  simp only [hl] at hp
  rw [Except.ok.injEq] at hp
  subst hp
  refine ⟨(rank_perm l).length_eq, ?_, ?_⟩
  · show ((rank l).filter (fun e =>
      decide (e.status_code ≠ 0 ∧ 200 ≤ e.status_code ∧
        e.status_code < 300))).length = _
    have hq : ∀ e : EndpointData,
        decide (e.status_code ≠ 0 ∧ 200 ≤ e.status_code ∧ e.status_code < 300) =
        decide (200 ≤ e.status_code ∧ e.status_code < 300) := by
      intro e
      rw [decide_eq_decide]
      omega
    rw [List.filter_congr (fun a _ => hq a)]
    rw [← List.countP_eq_length_filter, ← List.countP_eq_length_filter]
    exact (rank_perm l).countP_eq _
  · show ((rank l).filter (fun e =>
      match e.days_left with
      | some d => decide (d < 30)
      | none => false)).length = _
    have hq : ∀ e : EndpointData,
        (match e.days_left with
         | some d => decide (d < 30)
         | none => false) =
        e.days_left.any (fun d => decide (d < 30)) := by
      intro e
      cases e.days_left <;> rfl
    rw [List.filter_congr (fun a _ => hq a)]
    rw [← List.countP_eq_length_filter, ← List.countP_eq_length_filter]
    exact (rank_perm l).countP_eq _

/-- Witness for C8 at `demoStore`: two records, one healthy, one
certificate warning. -/
theorem C8_witness :
    demoPage.total_endpoints = demoJoined.length ∧
    demoPage.healthy_count = (demoJoined.filter (fun e =>
      decide (200 ≤ e.status_code ∧ e.status_code < 300))).length ∧
    demoPage.ssl_warning_count = (demoJoined.filter (fun e =>
      e.days_left.any (fun d => decide (d < 30)))).length :=
  C8_thm demoStore 1000000 demoJoined demoPage rfl rfl

end CertsNStatus

